import Mathlib

/-!
Verification development for the physics/camera/collision core of
`src/main.py` (a small pygame platformer).

The embedding translates the source into Lean:

* Python floats are modelled as exact rationals (`ℚ`); pygame's
  `Vector2` becomes the structure `Vec`.
* pygame's integer `Rect` becomes the structure `Rect` over `ℤ`; float
  values assigned to rect coordinates are truncated toward zero, which
  is what CPython's `int()` / pygame's C `(int)` cast do (`pyTrunc`).
* `pygame.Vector2 * pygame.Vector2` is the dot product (`Vec.dot`), and
  scalar-times-vector scales componentwise (`Vec.smul`), exactly as in
  pygame's `math` module; this matters for line 120 of the source.
* `pygame.sprite.spritecollide(player, group, False)` returns the
  colliding members in registration order; the source only uses the
  first hit, so it is embedded as `firstHit` (= `List.find?`).
* `Player.update` (src/main.py lines 100-132) is split into the four
  phases executed in source order: `integratePhase` (lines 106-121),
  `resolvePhase` (lines 123-126), `edgePhase` (lines 128-130) and
  `clampPhase` (line 132 together with `Player.clamp`, lines 136-143);
  `playerUpdate` is their composition in that order.
* `Camera.update` (lines 213-231) becomes `cameraUpdate`; `App.update`
  (lines 281-288) becomes `appUpdate`: the player sprite is updated
  first (the platform sprite `update` methods are no-ops and the debug
  overlay does not touch physics state), then the camera.
-/

namespace Platformer

/-- pygame `Vector2` with exact rational components. -/
structure Vec where
  x : ℚ
  y : ℚ
deriving DecidableEq, Repr

instance : Add Vec := ⟨fun a b => ⟨a.x + b.x, a.y + b.y⟩⟩

/-- Scalar times vector (pygame `float * Vector2`). -/
def Vec.smul (c : ℚ) (a : Vec) : Vec := ⟨c * a.x, c * a.y⟩

/-- pygame `Vector2 * Vector2` is the dot product (a scalar). -/
def Vec.dot (a b : Vec) : ℚ := a.x * b.x + a.y * b.y

/-- CPython `int()` conversion of a float: truncation toward zero. -/
def pyTrunc (q : ℚ) : ℤ := if 0 ≤ q then ⌊q⌋ else -⌊-q⌋

/-- pygame `Rect`: integer left/top corner plus width and height. -/
structure Rect where
  x : ℤ
  y : ℤ
  w : ℤ
  h : ℤ
deriving DecidableEq, Repr

def Rect.right (r : Rect) : ℤ := r.x + r.w

def Rect.bottom (r : Rect) : ℤ := r.y + r.h

def Rect.centerx (r : Rect) : ℤ := r.x + r.w / 2

/-- Reading `rect.midbottom` and converting it with `vector(...)`,
as done in `Player.clamp` (src/main.py line 143). -/
def Rect.midbottomVec (r : Rect) : Vec := ⟨(r.centerx : ℚ), (r.bottom : ℚ)⟩

/-- pygame `Rect.colliderect`: strict overlap on both axes
(touching edges do not collide). -/
def Rect.collide (a b : Rect) : Bool :=
  decide (a.x < b.x + b.w) && decide (a.x + a.w > b.x) &&
    decide (a.y < b.y + b.h) && decide (a.y + a.h > b.y)

/-- pygame `Rect.contains` (used by `screen_rect.contains(self.rect)`
in `Player.clamp`, src/main.py line 141). -/
def Rect.containsR (a r : Rect) : Bool :=
  decide (a.x ≤ r.x) && decide (a.y ≤ r.y) &&
    decide (r.x + r.w ≤ a.x + a.w) && decide (r.y + r.h ≤ a.y + a.h) &&
    decide (r.x < a.x + a.w) && decide (r.y < a.y + a.h)

/-- One axis of pygame `Rect.clamp_ip`: centred if too large,
otherwise moved minimally into the bounds. -/
def clampCoord (x w bx bw : ℤ) : ℤ :=
  if bw ≤ w then bx + bw / 2 - w / 2
  else if x < bx then bx
  else if bx + bw < x + w then bx + bw - w
  else x

/-- pygame `Rect.clamp_ip` (src/main.py line 142). -/
def Rect.clampIp (r bounds : Rect) : Rect :=
  ⟨clampCoord r.x r.w bounds.x bounds.w, clampCoord r.y r.h bounds.y bounds.h,
    r.w, r.h⟩

/-! Module-level constants of src/main.py (lines 22-35). -/

def screenW : ℤ := 600

def screenRect : Rect := ⟨0, 0, 600, 400⟩

/-- `VIRTUAL_SCREEN_SIZE[0]` = 1000. -/
def virtualW : ℚ := 1000

/-- `PLAYER_ACCELERATION = SCREEN_SIZE[0] / 1000` = 0.6. -/
def playerAccel : ℚ := 3/5

/-- `PLAYER_FRICTION = -0.12`. -/
def playerFriction : ℚ := -12/100

/-- `PLAYER_JUMP = -10`. -/
def playerJump : ℚ := -10

/-- Gravity constant: `self.acceleration = vector(0, 0.5)` (line 106). -/
def gravity : ℚ := 1/2

/-- `int(SCREEN_SIZE[0] * 0.25)` (src/main.py line 218). -/
def scrollLeftThreshold : ℚ := 150

/-- `int(SCREEN_SIZE[0] * 0.75)` (src/main.py line 225). -/
def scrollRightThreshold : ℚ := 450

/-- The relevant key states read by `Player.update`:
`K_LEFT`, `K_RIGHT`, `K_SPACE`. -/
structure Keys where
  left : Bool
  right : Bool
  space : Bool
deriving DecidableEq, Repr

/-- All keys released. -/
def noKeys : Keys := ⟨false, false, false⟩

/-- The mutable state of the `Player` sprite: `position`, `velocity`,
`acceleration` (Vector2, floats) and `rect` (integer Rect). -/
structure PlayerState where
  position : Vec
  velocity : Vec
  acceleration : Vec
  rect : Rect
deriving DecidableEq, Repr

/-- `SPRITE_SIZE = (20, 40)`. -/
def spriteW : ℤ := 20

def spriteH : ℤ := 40

/-- `self.rect.midbottom = self.position` (src/main.py line 121):
the rect keeps its 20x40 size; its centerx becomes the truncated
position.x and its bottom the truncated position.y. -/
def rectFromMidbottom (p : Vec) : Rect :=
  ⟨pyTrunc p.x - spriteW / 2, pyTrunc p.y - spriteH, spriteW, spriteH⟩

/-- `pg.sprite.spritecollide(self, self.app.all_platforms, False)` keeps
the platforms (here: their rects) whose rect collides with the player's
rect, in registration order; the source only ever uses the first match. -/
def firstHit (r : Rect) (plats : List Rect) : Option Rect :=
  plats.find? fun p => r.collide p

/-- Integration phase of `Player.update` (src/main.py lines 106-121):
gravity, horizontal input (with hard velocity reset on neutral input),
level-sensitive jump gated on a platform-collision test against the
stored `self.rect`, friction, `velocity += acceleration`, and
`position += velocity + vector(0.5,0.5) * vector(dt,dt) * acceleration`
where the first `*` is a Vector2 dot product; finally the rect is
re-anchored with `self.rect.midbottom = self.position`. -/
def integratePhase (keys : Keys) (plats : List Rect) (dt : ℚ)
    (s : PlayerState) : PlayerState :=
  let ax : ℚ := if keys.right then playerAccel
    else if keys.left then -playerAccel else 0
  let v1 : Vec := if keys.right || keys.left then s.velocity
    else ⟨0, s.velocity.y⟩
  let v2 : Vec := if keys.space && (firstHit s.rect plats).isSome then
    ⟨v1.x, playerJump⟩ else v1
  let a1 : Vec := ⟨ax + v2.x * playerFriction, gravity⟩
  let v3 : Vec := v2 + a1
  let p1 : Vec := s.position + v3 + Vec.smul (Vec.dot ⟨1/2, 1/2⟩ ⟨dt, dt⟩) a1
  { position := p1, velocity := v3, acceleration := a1,
    rect := rectFromMidbottom p1 }

/-- Collision-resolution phase of `Player.update` (src/main.py lines
123-126) together with `Player.fix_top` (lines 156-158): on the first
platform hit, `self.fix_top(result[0].rect.top + 1)` runs and `fix_top`
sets `self.position.y = top + 1` and `self.velocity.y = 0`; the rect is
not touched. -/
def resolvePhase (plats : List Rect) (s : PlayerState) : PlayerState :=
  match firstHit s.rect plats with
  | some plat =>
      { s with position := ⟨s.position.x, ((plat.y : ℚ) + 1) + 1⟩,
               velocity := ⟨s.velocity.x, 0⟩ }
  | none => s

/-- Edge phase of `Player.update` (src/main.py lines 128-130) with
`Player.reached_edge` (lines 160-164): if `self.rect.right >= 600`,
horizontal acceleration is zeroed. -/
def edgePhase (s : PlayerState) : PlayerState :=
  if screenW ≤ s.rect.right then { s with acceleration := ⟨0, s.acceleration.y⟩ }
  else s

/-- Clamp phase (`Player.clamp`, src/main.py lines 136-143): if the
screen rect does not contain the player's rect, clamp the rect in place
and resynchronise the float position from the clamped rect's midbottom;
otherwise do nothing. -/
def clampPhase (s : PlayerState) : PlayerState :=
  if screenRect.containsR s.rect then s
  else
    let r2 := s.rect.clampIp screenRect
    { s with rect := r2, position := r2.midbottomVec }

/-- `Player.update` (src/main.py lines 100-132) executes the four phases
in source order: integrate, resolve collisions, edge check, clamp. -/
def playerUpdate (keys : Keys) (plats : List Rect) (dt : ℚ)
    (s : PlayerState) : PlayerState :=
  clampPhase (edgePhase (resolvePhase plats (integratePhase keys plats dt s)))

/-- The rect read by the platform-collision test inside `Player.jump`
(src/main.py line 152): `self.rect` as it stands when the jump gate
runs, i.e. the rect stored at the end of the previous step — nothing
re-derives the rect between the start of `Player.update` and the call
to `jump` on line 116. -/
def jumpGateRect (s : PlayerState) : Rect := s.rect

/-- Camera state: `self.position` and `self.scroll`
(`Camera.__init__`, src/main.py lines 204-209). -/
structure CameraState where
  position : Vec
  scroll : ℚ
deriving DecidableEq, Repr

/-- `Camera.update` (src/main.py lines 213-231): on zero horizontal
acceleration of the target, set scroll to 0 and return; otherwise the
two edge-triggered branches nudge `position.x` by ±10, each guarded by
a comparison of the camera x against `virtual_screen_size[0] - 10`. -/
def cameraUpdate (c : CameraState) (t : PlayerState) : CameraState :=
  if t.acceleration.x = 0 then { c with scroll := 0 }
  else if t.velocity.x < 0 ∧ t.position.x < scrollLeftThreshold then
    (if virtualW - 10 < c.position.x then
      { c with position := ⟨c.position.x + 10, c.position.y⟩ } else c)
  else if 0 < t.velocity.x ∧ scrollRightThreshold < t.position.x then
    (if virtualW - 10 ≤ c.position.x then
      { c with position := ⟨c.position.x - 10, c.position.y⟩ } else c)
  else c

/-- Combined per-frame state of the core. -/
structure AppState where
  player : PlayerState
  camera : CameraState
deriving DecidableEq, Repr

/-- `App.update` (src/main.py lines 281-288): the sprite group updates
run first (the player is the only sprite whose `update` mutates state),
then `self.camera.update(self.player)`; the debug overlay reads but
does not write physics state. -/
def appUpdate (keys : Keys) (plats : List Rect) (dt : ℚ)
    (st : AppState) : AppState :=
  let p := playerUpdate keys plats dt st.player
  { player := p, camera := cameraUpdate st.camera p }

/-- Refinement comparison point, following the spec's stated phase
order (spec section 2: integrate, resolve, camera update, clamp): the
camera update precedes the clamp and therefore observes the pre-clamp
player state. Only the relative order of camera and clamp differs
from `appUpdate`. -/
def specOrderAppUpdate (keys : Keys) (plats : List Rect) (dt : ℚ)
    (st : AppState) : AppState :=
  let p3 := edgePhase (resolvePhase plats (integratePhase keys plats dt st.player))
  { player := clampPhase p3, camera := cameraUpdate st.camera p3 }

/-- Initial player (src/main.py line 258): position `(300, 200)`, zero
velocity and acceleration, rect anchored `topright=(300, 200)`. -/
def initPlayer : PlayerState :=
  { position := ⟨300, 200⟩, velocity := ⟨0, 0⟩, acceleration := ⟨0, 0⟩,
    rect := ⟨280, 200, 20, 40⟩ }

/-- Initial camera (src/main.py lines 204-209): position
`(SCREEN_SIZE[0]/2, SCREEN_SIZE[1]/2) = (300, 200)`, scroll 0. -/
def initCamera : CameraState := { position := ⟨300, 200⟩, scroll := 0 }

/-- `platform1` (src/main.py line 260): size `(600, 10)`, rect anchored
`topright=(600, 390)`. -/
def platform1 : Rect := ⟨0, 390, 600, 10⟩

/-- `platform2` (src/main.py line 261): size `(200, 10)`, rect anchored
`topright=(400, 300)`. -/
def platform2 : Rect := ⟨200, 300, 200, 10⟩

/-- `all_platforms` in registration order (src/main.py lines 262-264). -/
def codePlatforms : List Rect := [platform1, platform2]

/-- The single platform of the drop scenario in the claims:
world-space `topRight=(600,390)`, size `(600,10)`. -/
def scenarioPlatform : Rect := ⟨0, 390, 600, 10⟩

/-- Drop state of the scenario: body dropped from `(300, 0)` at rest. -/
def dropState : PlayerState :=
  { position := ⟨300, 0⟩, velocity := ⟨0, 0⟩, acceleration := ⟨0, 0⟩,
    rect := rectFromMidbottom ⟨300, 0⟩ }

/-- A landing-frame state: the body has just been integrated to
`position = (300, 396.5)` while falling at `velocity = (0, 6)`; its
rect has been re-anchored from that position, so it overlaps the
scenario platform (top edge 390). -/
def landingState : PlayerState :=
  { position := ⟨300, 793/2⟩, velocity := ⟨0, 6⟩, acceleration := ⟨0, 1/2⟩,
    rect := ⟨290, 356, 20, 40⟩ }

/-- A player state moving right just above the 75% scroll threshold
with its rect sticking out below the screen: position `(449.9, 404)`,
rect anchored from that position. -/
def rightwardPlayer : PlayerState :=
  { position := ⟨4499/10, 404⟩, velocity := ⟨0, 0⟩, acceleration := ⟨0, 0⟩,
    rect := ⟨439, 364, 20, 40⟩ }

/-- App state pairing `rightwardPlayer` with a camera whose x sits in
the region `≥ virtualW - 10` where the scroll branches are enabled. -/
def scrollReadyApp : AppState :=
  { player := rightwardPlayer, camera := { position := ⟨995, 200⟩, scroll := 0 } }

/-- A player state whose rect pokes out below the bottom of the screen
(bottom edge 405 > 400), used to exercise the clamp-and-resync path. -/
def belowScreenPlayer : PlayerState :=
  { position := ⟨300, 405⟩, velocity := ⟨0, 0⟩, acceleration := ⟨0, 0⟩,
    rect := ⟨290, 365, 20, 40⟩ }

/-! Helper lemmas. -/

theorem Vec.add_def (a b : Vec) : a + b = ⟨a.x + b.x, a.y + b.y⟩ := rfl

theorem clampPhase_velocity (s : PlayerState) :
    (clampPhase s).velocity = s.velocity := by
  unfold clampPhase
  split <;> rfl

theorem edgePhase_velocity (s : PlayerState) :
    (edgePhase s).velocity = s.velocity := by
  unfold edgePhase
  split <;> rfl

theorem resolvePhase_velocity_x (plats : List Rect) (s : PlayerState) :
    (resolvePhase plats s).velocity.x = s.velocity.x := by
  unfold resolvePhase
  split <;> rfl

theorem cameraUpdate_position_keep (c : CameraState) (t : PlayerState)
    (h : c.position.x < virtualW - 10) :
    (cameraUpdate c t).position = c.position := by
  unfold cameraUpdate
  split_ifs with h1 h2 h3 h4 h5 <;> first | rfl | (exfalso; exact absurd h (by linarith))

theorem foldl_cameraUpdate_position (ts : List PlayerState) (c : CameraState)
    (h : c.position.x = 300) : (ts.foldl cameraUpdate c).position = c.position := by
  induction ts generalizing c with
  | nil => rfl
  | cons t ts ih =>
      have hk : (cameraUpdate c t).position = c.position :=
        cameraUpdate_position_keep c t (by rw [h]; norm_num [virtualW])
      simp only [List.foldl_cons]
      rw [ih (cameraUpdate c t) (by rw [hk, h]), hk]

theorem clampCoord_mem (x w bx bw : ℤ) (hw : w < bw) :
    bx ≤ clampCoord x w bx bw ∧ clampCoord x w bx bw + w ≤ bx + bw := by
  unfold clampCoord
  rw [if_neg (by omega)]
  split_ifs <;> omega

/-! Settled claims.

The concrete evaluations below are closed by `decide`: the Batteries
rational operations are `@[irreducible]` only to keep them from being
unfolded accidentally during elaboration, so they are made
semireducible locally; the kernel re-checks the resulting decisions in
full. -/

attribute [local semireducible] Rat.add Rat.mul Rat.inv Rat.sub

set_option maxRecDepth 4000 in
/-- Step-by-step evaluation of the drop scenario: after 38 steps the body rests at position (300, 392). -/
theorem dropChain :
    (playerUpdate noKeys [scenarioPlatform] 0)^[38] dropState =
      ⟨⟨300, 392⟩, ⟨0, 0⟩, ⟨0, 1/2⟩, ⟨290, 352, 20, 40⟩⟩ := by
  have h0 : (playerUpdate noKeys [scenarioPlatform] 0)^[0] dropState =
      ⟨⟨300, 0⟩, ⟨0, 0⟩, ⟨0, 0⟩, ⟨290, -40, 20, 40⟩⟩ := by
    decide
  have h1 : (playerUpdate noKeys [scenarioPlatform] 0)^[1] dropState =
      ⟨⟨300, 40⟩, ⟨0, 1/2⟩, ⟨0, 1/2⟩, ⟨290, 0, 20, 40⟩⟩ := by
    rw [show (1 : ℕ) = 0 + 1 from rfl, Function.iterate_succ_apply', h0]
    decide
  have h2 : (playerUpdate noKeys [scenarioPlatform] 0)^[2] dropState =
      ⟨⟨300, 41⟩, ⟨0, 1⟩, ⟨0, 1/2⟩, ⟨290, 1, 20, 40⟩⟩ := by
    rw [show (2 : ℕ) = 1 + 1 from rfl, Function.iterate_succ_apply', h1]
    decide
  have h3 : (playerUpdate noKeys [scenarioPlatform] 0)^[3] dropState =
      ⟨⟨300, 85/2⟩, ⟨0, 3/2⟩, ⟨0, 1/2⟩, ⟨290, 2, 20, 40⟩⟩ := by
    rw [show (3 : ℕ) = 2 + 1 from rfl, Function.iterate_succ_apply', h2]
    decide
  have h4 : (playerUpdate noKeys [scenarioPlatform] 0)^[4] dropState =
      ⟨⟨300, 89/2⟩, ⟨0, 2⟩, ⟨0, 1/2⟩, ⟨290, 4, 20, 40⟩⟩ := by
    rw [show (4 : ℕ) = 3 + 1 from rfl, Function.iterate_succ_apply', h3]
    decide
  have h5 : (playerUpdate noKeys [scenarioPlatform] 0)^[5] dropState =
      ⟨⟨300, 47⟩, ⟨0, 5/2⟩, ⟨0, 1/2⟩, ⟨290, 7, 20, 40⟩⟩ := by
    rw [show (5 : ℕ) = 4 + 1 from rfl, Function.iterate_succ_apply', h4]
    decide
  have h6 : (playerUpdate noKeys [scenarioPlatform] 0)^[6] dropState =
      ⟨⟨300, 50⟩, ⟨0, 3⟩, ⟨0, 1/2⟩, ⟨290, 10, 20, 40⟩⟩ := by
    rw [show (6 : ℕ) = 5 + 1 from rfl, Function.iterate_succ_apply', h5]
    decide
  have h7 : (playerUpdate noKeys [scenarioPlatform] 0)^[7] dropState =
      ⟨⟨300, 107/2⟩, ⟨0, 7/2⟩, ⟨0, 1/2⟩, ⟨290, 13, 20, 40⟩⟩ := by
    rw [show (7 : ℕ) = 6 + 1 from rfl, Function.iterate_succ_apply', h6]
    decide
  have h8 : (playerUpdate noKeys [scenarioPlatform] 0)^[8] dropState =
      ⟨⟨300, 115/2⟩, ⟨0, 4⟩, ⟨0, 1/2⟩, ⟨290, 17, 20, 40⟩⟩ := by
    rw [show (8 : ℕ) = 7 + 1 from rfl, Function.iterate_succ_apply', h7]
    decide
  have h9 : (playerUpdate noKeys [scenarioPlatform] 0)^[9] dropState =
      ⟨⟨300, 62⟩, ⟨0, 9/2⟩, ⟨0, 1/2⟩, ⟨290, 22, 20, 40⟩⟩ := by
    rw [show (9 : ℕ) = 8 + 1 from rfl, Function.iterate_succ_apply', h8]
    decide
  have h10 : (playerUpdate noKeys [scenarioPlatform] 0)^[10] dropState =
      ⟨⟨300, 67⟩, ⟨0, 5⟩, ⟨0, 1/2⟩, ⟨290, 27, 20, 40⟩⟩ := by
    rw [show (10 : ℕ) = 9 + 1 from rfl, Function.iterate_succ_apply', h9]
    decide
  have h11 : (playerUpdate noKeys [scenarioPlatform] 0)^[11] dropState =
      ⟨⟨300, 145/2⟩, ⟨0, 11/2⟩, ⟨0, 1/2⟩, ⟨290, 32, 20, 40⟩⟩ := by
    rw [show (11 : ℕ) = 10 + 1 from rfl, Function.iterate_succ_apply', h10]
    decide
  have h12 : (playerUpdate noKeys [scenarioPlatform] 0)^[12] dropState =
      ⟨⟨300, 157/2⟩, ⟨0, 6⟩, ⟨0, 1/2⟩, ⟨290, 38, 20, 40⟩⟩ := by
    rw [show (12 : ℕ) = 11 + 1 from rfl, Function.iterate_succ_apply', h11]
    decide
  have h13 : (playerUpdate noKeys [scenarioPlatform] 0)^[13] dropState =
      ⟨⟨300, 85⟩, ⟨0, 13/2⟩, ⟨0, 1/2⟩, ⟨290, 45, 20, 40⟩⟩ := by
    rw [show (13 : ℕ) = 12 + 1 from rfl, Function.iterate_succ_apply', h12]
    decide
  have h14 : (playerUpdate noKeys [scenarioPlatform] 0)^[14] dropState =
      ⟨⟨300, 92⟩, ⟨0, 7⟩, ⟨0, 1/2⟩, ⟨290, 52, 20, 40⟩⟩ := by
    rw [show (14 : ℕ) = 13 + 1 from rfl, Function.iterate_succ_apply', h13]
    decide
  have h15 : (playerUpdate noKeys [scenarioPlatform] 0)^[15] dropState =
      ⟨⟨300, 199/2⟩, ⟨0, 15/2⟩, ⟨0, 1/2⟩, ⟨290, 59, 20, 40⟩⟩ := by
    rw [show (15 : ℕ) = 14 + 1 from rfl, Function.iterate_succ_apply', h14]
    decide
  have h16 : (playerUpdate noKeys [scenarioPlatform] 0)^[16] dropState =
      ⟨⟨300, 215/2⟩, ⟨0, 8⟩, ⟨0, 1/2⟩, ⟨290, 67, 20, 40⟩⟩ := by
    rw [show (16 : ℕ) = 15 + 1 from rfl, Function.iterate_succ_apply', h15]
    decide
  have h17 : (playerUpdate noKeys [scenarioPlatform] 0)^[17] dropState =
      ⟨⟨300, 116⟩, ⟨0, 17/2⟩, ⟨0, 1/2⟩, ⟨290, 76, 20, 40⟩⟩ := by
    rw [show (17 : ℕ) = 16 + 1 from rfl, Function.iterate_succ_apply', h16]
    decide
  have h18 : (playerUpdate noKeys [scenarioPlatform] 0)^[18] dropState =
      ⟨⟨300, 125⟩, ⟨0, 9⟩, ⟨0, 1/2⟩, ⟨290, 85, 20, 40⟩⟩ := by
    rw [show (18 : ℕ) = 17 + 1 from rfl, Function.iterate_succ_apply', h17]
    decide
  have h19 : (playerUpdate noKeys [scenarioPlatform] 0)^[19] dropState =
      ⟨⟨300, 269/2⟩, ⟨0, 19/2⟩, ⟨0, 1/2⟩, ⟨290, 94, 20, 40⟩⟩ := by
    rw [show (19 : ℕ) = 18 + 1 from rfl, Function.iterate_succ_apply', h18]
    decide
  have h20 : (playerUpdate noKeys [scenarioPlatform] 0)^[20] dropState =
      ⟨⟨300, 289/2⟩, ⟨0, 10⟩, ⟨0, 1/2⟩, ⟨290, 104, 20, 40⟩⟩ := by
    rw [show (20 : ℕ) = 19 + 1 from rfl, Function.iterate_succ_apply', h19]
    decide
  have h21 : (playerUpdate noKeys [scenarioPlatform] 0)^[21] dropState =
      ⟨⟨300, 155⟩, ⟨0, 21/2⟩, ⟨0, 1/2⟩, ⟨290, 115, 20, 40⟩⟩ := by
    rw [show (21 : ℕ) = 20 + 1 from rfl, Function.iterate_succ_apply', h20]
    decide
  have h22 : (playerUpdate noKeys [scenarioPlatform] 0)^[22] dropState =
      ⟨⟨300, 166⟩, ⟨0, 11⟩, ⟨0, 1/2⟩, ⟨290, 126, 20, 40⟩⟩ := by
    rw [show (22 : ℕ) = 21 + 1 from rfl, Function.iterate_succ_apply', h21]
    decide
  have h23 : (playerUpdate noKeys [scenarioPlatform] 0)^[23] dropState =
      ⟨⟨300, 355/2⟩, ⟨0, 23/2⟩, ⟨0, 1/2⟩, ⟨290, 137, 20, 40⟩⟩ := by
    rw [show (23 : ℕ) = 22 + 1 from rfl, Function.iterate_succ_apply', h22]
    decide
  have h24 : (playerUpdate noKeys [scenarioPlatform] 0)^[24] dropState =
      ⟨⟨300, 379/2⟩, ⟨0, 12⟩, ⟨0, 1/2⟩, ⟨290, 149, 20, 40⟩⟩ := by
    rw [show (24 : ℕ) = 23 + 1 from rfl, Function.iterate_succ_apply', h23]
    decide
  have h25 : (playerUpdate noKeys [scenarioPlatform] 0)^[25] dropState =
      ⟨⟨300, 202⟩, ⟨0, 25/2⟩, ⟨0, 1/2⟩, ⟨290, 162, 20, 40⟩⟩ := by
    rw [show (25 : ℕ) = 24 + 1 from rfl, Function.iterate_succ_apply', h24]
    decide
  have h26 : (playerUpdate noKeys [scenarioPlatform] 0)^[26] dropState =
      ⟨⟨300, 215⟩, ⟨0, 13⟩, ⟨0, 1/2⟩, ⟨290, 175, 20, 40⟩⟩ := by
    rw [show (26 : ℕ) = 25 + 1 from rfl, Function.iterate_succ_apply', h25]
    decide
  have h27 : (playerUpdate noKeys [scenarioPlatform] 0)^[27] dropState =
      ⟨⟨300, 457/2⟩, ⟨0, 27/2⟩, ⟨0, 1/2⟩, ⟨290, 188, 20, 40⟩⟩ := by
    rw [show (27 : ℕ) = 26 + 1 from rfl, Function.iterate_succ_apply', h26]
    decide
  have h28 : (playerUpdate noKeys [scenarioPlatform] 0)^[28] dropState =
      ⟨⟨300, 485/2⟩, ⟨0, 14⟩, ⟨0, 1/2⟩, ⟨290, 202, 20, 40⟩⟩ := by
    rw [show (28 : ℕ) = 27 + 1 from rfl, Function.iterate_succ_apply', h27]
    decide
  have h29 : (playerUpdate noKeys [scenarioPlatform] 0)^[29] dropState =
      ⟨⟨300, 257⟩, ⟨0, 29/2⟩, ⟨0, 1/2⟩, ⟨290, 217, 20, 40⟩⟩ := by
    rw [show (29 : ℕ) = 28 + 1 from rfl, Function.iterate_succ_apply', h28]
    decide
  have h30 : (playerUpdate noKeys [scenarioPlatform] 0)^[30] dropState =
      ⟨⟨300, 272⟩, ⟨0, 15⟩, ⟨0, 1/2⟩, ⟨290, 232, 20, 40⟩⟩ := by
    rw [show (30 : ℕ) = 29 + 1 from rfl, Function.iterate_succ_apply', h29]
    decide
  have h31 : (playerUpdate noKeys [scenarioPlatform] 0)^[31] dropState =
      ⟨⟨300, 575/2⟩, ⟨0, 31/2⟩, ⟨0, 1/2⟩, ⟨290, 247, 20, 40⟩⟩ := by
    rw [show (31 : ℕ) = 30 + 1 from rfl, Function.iterate_succ_apply', h30]
    decide
  have h32 : (playerUpdate noKeys [scenarioPlatform] 0)^[32] dropState =
      ⟨⟨300, 607/2⟩, ⟨0, 16⟩, ⟨0, 1/2⟩, ⟨290, 263, 20, 40⟩⟩ := by
    rw [show (32 : ℕ) = 31 + 1 from rfl, Function.iterate_succ_apply', h31]
    decide
  have h33 : (playerUpdate noKeys [scenarioPlatform] 0)^[33] dropState =
      ⟨⟨300, 320⟩, ⟨0, 33/2⟩, ⟨0, 1/2⟩, ⟨290, 280, 20, 40⟩⟩ := by
    rw [show (33 : ℕ) = 32 + 1 from rfl, Function.iterate_succ_apply', h32]
    decide
  have h34 : (playerUpdate noKeys [scenarioPlatform] 0)^[34] dropState =
      ⟨⟨300, 337⟩, ⟨0, 17⟩, ⟨0, 1/2⟩, ⟨290, 297, 20, 40⟩⟩ := by
    rw [show (34 : ℕ) = 33 + 1 from rfl, Function.iterate_succ_apply', h33]
    decide
  have h35 : (playerUpdate noKeys [scenarioPlatform] 0)^[35] dropState =
      ⟨⟨300, 709/2⟩, ⟨0, 35/2⟩, ⟨0, 1/2⟩, ⟨290, 314, 20, 40⟩⟩ := by
    rw [show (35 : ℕ) = 34 + 1 from rfl, Function.iterate_succ_apply', h34]
    decide
  have h36 : (playerUpdate noKeys [scenarioPlatform] 0)^[36] dropState =
      ⟨⟨300, 745/2⟩, ⟨0, 18⟩, ⟨0, 1/2⟩, ⟨290, 332, 20, 40⟩⟩ := by
    rw [show (36 : ℕ) = 35 + 1 from rfl, Function.iterate_succ_apply', h35]
    decide
  have h37 : (playerUpdate noKeys [scenarioPlatform] 0)^[37] dropState =
      ⟨⟨300, 392⟩, ⟨0, 0⟩, ⟨0, 1/2⟩, ⟨290, 351, 20, 40⟩⟩ := by
    rw [show (37 : ℕ) = 36 + 1 from rfl, Function.iterate_succ_apply', h36]
    decide
  have h38 : (playerUpdate noKeys [scenarioPlatform] 0)^[38] dropState =
      ⟨⟨300, 392⟩, ⟨0, 0⟩, ⟨0, 1/2⟩, ⟨290, 352, 20, 40⟩⟩ := by
    rw [show (38 : ℕ) = 37 + 1 from rfl, Function.iterate_succ_apply', h37]
    decide
  exact h38

set_option maxRecDepth 4000 in
/-- Step-by-step evaluation of the no-input fall from the initial state over the code platforms: the state one step before landing on platform2. -/
theorem fallChain19 :
    (playerUpdate noKeys codePlatforms 0)^[19] initPlayer =
      ⟨⟨300, 295⟩, ⟨0, 19/2⟩, ⟨0, 1/2⟩, ⟨290, 255, 20, 40⟩⟩ := by
  have h0 : (playerUpdate noKeys codePlatforms 0)^[0] initPlayer =
      ⟨⟨300, 200⟩, ⟨0, 0⟩, ⟨0, 0⟩, ⟨280, 200, 20, 40⟩⟩ := by
    decide
  have h1 : (playerUpdate noKeys codePlatforms 0)^[1] initPlayer =
      ⟨⟨300, 401/2⟩, ⟨0, 1/2⟩, ⟨0, 1/2⟩, ⟨290, 160, 20, 40⟩⟩ := by
    rw [show (1 : ℕ) = 0 + 1 from rfl, Function.iterate_succ_apply', h0]
    decide
  have h2 : (playerUpdate noKeys codePlatforms 0)^[2] initPlayer =
      ⟨⟨300, 403/2⟩, ⟨0, 1⟩, ⟨0, 1/2⟩, ⟨290, 161, 20, 40⟩⟩ := by
    rw [show (2 : ℕ) = 1 + 1 from rfl, Function.iterate_succ_apply', h1]
    decide
  have h3 : (playerUpdate noKeys codePlatforms 0)^[3] initPlayer =
      ⟨⟨300, 203⟩, ⟨0, 3/2⟩, ⟨0, 1/2⟩, ⟨290, 163, 20, 40⟩⟩ := by
    rw [show (3 : ℕ) = 2 + 1 from rfl, Function.iterate_succ_apply', h2]
    decide
  have h4 : (playerUpdate noKeys codePlatforms 0)^[4] initPlayer =
      ⟨⟨300, 205⟩, ⟨0, 2⟩, ⟨0, 1/2⟩, ⟨290, 165, 20, 40⟩⟩ := by
    rw [show (4 : ℕ) = 3 + 1 from rfl, Function.iterate_succ_apply', h3]
    decide
  have h5 : (playerUpdate noKeys codePlatforms 0)^[5] initPlayer =
      ⟨⟨300, 415/2⟩, ⟨0, 5/2⟩, ⟨0, 1/2⟩, ⟨290, 167, 20, 40⟩⟩ := by
    rw [show (5 : ℕ) = 4 + 1 from rfl, Function.iterate_succ_apply', h4]
    decide
  have h6 : (playerUpdate noKeys codePlatforms 0)^[6] initPlayer =
      ⟨⟨300, 421/2⟩, ⟨0, 3⟩, ⟨0, 1/2⟩, ⟨290, 170, 20, 40⟩⟩ := by
    rw [show (6 : ℕ) = 5 + 1 from rfl, Function.iterate_succ_apply', h5]
    decide
  have h7 : (playerUpdate noKeys codePlatforms 0)^[7] initPlayer =
      ⟨⟨300, 214⟩, ⟨0, 7/2⟩, ⟨0, 1/2⟩, ⟨290, 174, 20, 40⟩⟩ := by
    rw [show (7 : ℕ) = 6 + 1 from rfl, Function.iterate_succ_apply', h6]
    decide
  have h8 : (playerUpdate noKeys codePlatforms 0)^[8] initPlayer =
      ⟨⟨300, 218⟩, ⟨0, 4⟩, ⟨0, 1/2⟩, ⟨290, 178, 20, 40⟩⟩ := by
    rw [show (8 : ℕ) = 7 + 1 from rfl, Function.iterate_succ_apply', h7]
    decide
  have h9 : (playerUpdate noKeys codePlatforms 0)^[9] initPlayer =
      ⟨⟨300, 445/2⟩, ⟨0, 9/2⟩, ⟨0, 1/2⟩, ⟨290, 182, 20, 40⟩⟩ := by
    rw [show (9 : ℕ) = 8 + 1 from rfl, Function.iterate_succ_apply', h8]
    decide
  have h10 : (playerUpdate noKeys codePlatforms 0)^[10] initPlayer =
      ⟨⟨300, 455/2⟩, ⟨0, 5⟩, ⟨0, 1/2⟩, ⟨290, 187, 20, 40⟩⟩ := by
    rw [show (10 : ℕ) = 9 + 1 from rfl, Function.iterate_succ_apply', h9]
    decide
  have h11 : (playerUpdate noKeys codePlatforms 0)^[11] initPlayer =
      ⟨⟨300, 233⟩, ⟨0, 11/2⟩, ⟨0, 1/2⟩, ⟨290, 193, 20, 40⟩⟩ := by
    rw [show (11 : ℕ) = 10 + 1 from rfl, Function.iterate_succ_apply', h10]
    decide
  have h12 : (playerUpdate noKeys codePlatforms 0)^[12] initPlayer =
      ⟨⟨300, 239⟩, ⟨0, 6⟩, ⟨0, 1/2⟩, ⟨290, 199, 20, 40⟩⟩ := by
    rw [show (12 : ℕ) = 11 + 1 from rfl, Function.iterate_succ_apply', h11]
    decide
  have h13 : (playerUpdate noKeys codePlatforms 0)^[13] initPlayer =
      ⟨⟨300, 491/2⟩, ⟨0, 13/2⟩, ⟨0, 1/2⟩, ⟨290, 205, 20, 40⟩⟩ := by
    rw [show (13 : ℕ) = 12 + 1 from rfl, Function.iterate_succ_apply', h12]
    decide
  have h14 : (playerUpdate noKeys codePlatforms 0)^[14] initPlayer =
      ⟨⟨300, 505/2⟩, ⟨0, 7⟩, ⟨0, 1/2⟩, ⟨290, 212, 20, 40⟩⟩ := by
    rw [show (14 : ℕ) = 13 + 1 from rfl, Function.iterate_succ_apply', h13]
    decide
  have h15 : (playerUpdate noKeys codePlatforms 0)^[15] initPlayer =
      ⟨⟨300, 260⟩, ⟨0, 15/2⟩, ⟨0, 1/2⟩, ⟨290, 220, 20, 40⟩⟩ := by
    rw [show (15 : ℕ) = 14 + 1 from rfl, Function.iterate_succ_apply', h14]
    decide
  have h16 : (playerUpdate noKeys codePlatforms 0)^[16] initPlayer =
      ⟨⟨300, 268⟩, ⟨0, 8⟩, ⟨0, 1/2⟩, ⟨290, 228, 20, 40⟩⟩ := by
    rw [show (16 : ℕ) = 15 + 1 from rfl, Function.iterate_succ_apply', h15]
    decide
  have h17 : (playerUpdate noKeys codePlatforms 0)^[17] initPlayer =
      ⟨⟨300, 553/2⟩, ⟨0, 17/2⟩, ⟨0, 1/2⟩, ⟨290, 236, 20, 40⟩⟩ := by
    rw [show (17 : ℕ) = 16 + 1 from rfl, Function.iterate_succ_apply', h16]
    decide
  have h18 : (playerUpdate noKeys codePlatforms 0)^[18] initPlayer =
      ⟨⟨300, 571/2⟩, ⟨0, 9⟩, ⟨0, 1/2⟩, ⟨290, 245, 20, 40⟩⟩ := by
    rw [show (18 : ℕ) = 17 + 1 from rfl, Function.iterate_succ_apply', h17]
    decide
  have h19 : (playerUpdate noKeys codePlatforms 0)^[19] initPlayer =
      ⟨⟨300, 295⟩, ⟨0, 19/2⟩, ⟨0, 1/2⟩, ⟨290, 255, 20, 40⟩⟩ := by
    rw [show (19 : ℕ) = 18 + 1 from rfl, Function.iterate_succ_apply', h18]
    decide
  exact h19

set_option maxRecDepth 4000 in
/-- The state after 20 no-input steps from the initial state: the body
has just landed on platform2, so `fix_top` has moved `position.y` to
302 while the stored rect still has bottom 305. -/
theorem fallChain20 :
    (playerUpdate noKeys codePlatforms 0)^[20] initPlayer =
      ⟨⟨300, 302⟩, ⟨0, 0⟩, ⟨0, 1/2⟩, ⟨290, 265, 20, 40⟩⟩ := by
  rw [show (20 : ℕ) = 19 + 1 from rfl, Function.iterate_succ_apply', fallChain19]
  decide


/-- Claim C3 (confirmed): starting from the initial camera state
`(300, 200)`, the camera position is unchanged by every call to
`Camera.update`, for every sequence of player states, because both
scroll branches are guarded by `camera.position.x > 990` resp.
`>= 990`, which a camera at x = 300 never satisfies; in particular
`camera.position.x = 300` is an invariant of every reachable state. -/
theorem c3_camera_position_invariant (ts : List PlayerState) :
    (ts.foldl cameraUpdate initCamera).position = initCamera.position ∧
      (ts.foldl cameraUpdate initCamera).position.x = 300 := by
  have h := foldl_cameraUpdate_position ts initCamera rfl
  exact ⟨h, by rw [h]; rfl⟩

/-- Claim C7 (confirmed): for every pre-step state with any velocity.x,
one step of `Player.update` with neutral horizontal input (neither left
nor right pressed) ends with `velocity.x = 0` exactly: the neutral
branch hard-resets `velocity.x`, the friction term is then zero, and no
later phase touches `velocity.x`. -/
theorem c7_neutral_input_hard_stop (space : Bool) (plats : List Rect) (dt : ℚ)
    (s : PlayerState) :
    (playerUpdate ⟨false, false, space⟩ plats dt s).velocity.x = 0 := by
  unfold playerUpdate
  rw [clampPhase_velocity, edgePhase_velocity, resolvePhase_velocity_x]
  simp only [integratePhase, Vec.add_def, Vec.smul, Vec.dot, Bool.or_false,
    Bool.false_or]
  split <;> norm_num [playerFriction]

/-- Claim C8 (confirmed): whenever the tracked body's horizontal
acceleration is exactly zero at camera-update time, `Camera.update`
takes the early-return branch; it leaves `position` unchanged and, on
every reachable camera state (where `scroll = 0` always holds), it also
leaves `scroll` unchanged, regardless of the sign of the velocity. -/
theorem c8_camera_idle_on_zero_accel (c : CameraState) (t : PlayerState)
    (ha : t.acceleration.x = 0) (hs : c.scroll = 0) :
    (cameraUpdate c t).position = c.position ∧
      (cameraUpdate c t).scroll = c.scroll := by
  unfold cameraUpdate
  rw [if_pos ha]
  exact ⟨rfl, by simp [hs]⟩

/-- Witness for C8: the initial camera and the initial player satisfy
the hypotheses, and the conclusion evaluates. -/
theorem c8_camera_idle_on_zero_accel_witness :
    (cameraUpdate initCamera initPlayer).position = initCamera.position ∧
      (cameraUpdate initCamera initPlayer).scroll = initCamera.scroll :=
  c8_camera_idle_on_zero_accel initCamera initPlayer rfl rfl

/-- Claim C9 (confirmed): when the player's rect lies partly outside
the screen bounds, the clamp phase moves the rect fully inside the
screen and resynchronises the float position from the clamped rect's
midbottom; when the rect is already fully inside, the clamp phase
changes nothing. -/
theorem c9_clamp_resync (s : PlayerState) (hw : s.rect.w = 20)
    (hh : s.rect.h = 40) :
    (screenRect.containsR s.rect = false →
        screenRect.containsR (clampPhase s).rect = true ∧
          (clampPhase s).position = (clampPhase s).rect.midbottomVec) ∧
      (screenRect.containsR s.rect = true → clampPhase s = s) := by
  constructor
  · intro hout
    have h2 : clampPhase s =
        { s with rect := s.rect.clampIp screenRect,
                 position := (s.rect.clampIp screenRect).midbottomVec } := by
      unfold clampPhase
      simp [hout]
    rw [h2]
    refine ⟨?_, rfl⟩
    have hx := clampCoord_mem s.rect.x 20 0 600 (by norm_num)
    have hy := clampCoord_mem s.rect.y 40 0 400 (by norm_num)
    simp only [Rect.containsR, Rect.clampIp, screenRect, Bool.and_eq_true,
      decide_eq_true_eq]
    rw [hw, hh]
    omega
  · intro hin
    unfold clampPhase
    simp [hin]

/-- Witness for C9: `belowScreenPlayer` has its rect partly below the
screen; after the clamp its rect is inside the screen and its position
is the clamped rect's midbottom. -/
theorem c9_clamp_resync_witness :
    screenRect.containsR (clampPhase belowScreenPlayer).rect = true ∧
      (clampPhase belowScreenPlayer).position =
        (clampPhase belowScreenPlayer).rect.midbottomVec :=
  (c9_clamp_resync belowScreenPlayer rfl rfl).1 (by decide)

/-- Claim C1 (refuted as stated): the position update does not add
`velocity + 0.5 * dt^2 * acceleration`. At `dt = 1` with no keys from
the initial state, the integrated position is `(300, 201)` while the
claimed update would give `(300, 200.75)`. -/
theorem c1_counterexample :
    ¬ ((integratePhase noKeys [] 1 initPlayer).position =
        initPlayer.position + (integratePhase noKeys [] 1 initPlayer).velocity +
          Vec.smul (1/2 * (1 * 1))
            (integratePhase noKeys [] 1 initPlayer).acceleration) := by
  decide

/-- Claim C1 (amended): for every integration step with any inputs and
any dt, the position update adds exactly `velocity + dt * acceleration`
componentwise: `vector(0.5,0.5) * vector(dt,dt)` is a pygame Vector2
dot product, i.e. the scalar `0.5*dt + 0.5*dt = dt`, which then scales
the acceleration. -/
theorem c1_amended (keys : Keys) (plats : List Rect) (dt : ℚ)
    (s : PlayerState) :
    (integratePhase keys plats dt s).position =
      s.position + (integratePhase keys plats dt s).velocity +
        Vec.smul dt (integratePhase keys plats dt s).acceleration := by
  simp only [integratePhase, Vec.add_def, Vec.smul, Vec.dot, Vec.mk.injEq]
  constructor <;> ring

/-- Claim C2 (refuted as stated): on a platform hit, collision
resolution does not set `position.y` to `platformTop + 1`: at the
concrete landing state over the scenario platform (top edge 390) the
resolved `position.y` is 392, not 391, because the call site already
passes `top + 1` and `fix_top` adds one more. -/
theorem c2_counterexample :
    firstHit landingState.rect [scenarioPlatform] = some scenarioPlatform ∧
      (scenarioPlatform.y : ℚ) + 1 = 391 ∧
      (resolvePhase [scenarioPlatform] landingState).position.y ≠ 391 := by
  decide

set_option maxRecDepth 4000 in
/-- Claim C2 (amended): on a match, collision resolution sets
`body.position.y` to exactly `platformTop + 2` (the call site passes
`top + 1` and `fix_top` adds another 1) and zeroes `velocity.y`; the
body of the drop scenario (platform top edge at y = 390, drop from
`(300, 0)`, zero horizontal input) comes to rest with
`position.y = 392`: after 38 steps it reaches that state, which is a
fixed point of the step. -/
theorem c2_amended :
    (∀ (s : PlayerState) (plats : List Rect) (plat : Rect),
        firstHit s.rect plats = some plat →
          (resolvePhase plats s).position.y = (plat.y : ℚ) + 2 ∧
            (resolvePhase plats s).velocity.y = 0) ∧
      ((playerUpdate noKeys [scenarioPlatform] 0)^[38] dropState).position.y =
        392 ∧
      playerUpdate noKeys [scenarioPlatform] 0
          ((playerUpdate noKeys [scenarioPlatform] 0)^[38] dropState) =
        (playerUpdate noKeys [scenarioPlatform] 0)^[38] dropState := by
  refine ⟨fun s plats plat h => ?_, by rw [dropChain], by rw [dropChain]; decide⟩
  have h2 : resolvePhase plats s =
      { s with position := ⟨s.position.x, ((plat.y : ℚ) + 1) + 1⟩,
               velocity := ⟨s.velocity.x, 0⟩ } := by
    unfold resolvePhase
    rw [h]
  rw [h2]
  exact ⟨by ring, rfl⟩

/-- Witness for C2 (amended): at the concrete landing state over the
scenario platform the hypothesis of the snap rule holds and the
resolved state has `position.y = platformTop + 2` and `velocity.y = 0`. -/
theorem c2_amended_witness :
    (resolvePhase [scenarioPlatform] landingState).position.y =
        (scenarioPlatform.y : ℚ) + 2 ∧
      (resolvePhase [scenarioPlatform] landingState).velocity.y = 0 :=
  c2_amended.1 landingState [scenarioPlatform] scenarioPlatform (by decide)

/-- Claim C4 (refuted as stated): the camera update does not precede
the clamp step. At `scrollReadyApp` (camera x in the scroll-enabled
region, player crossing the 75% threshold with its rect below the
screen) the code's frame function and the spec-ordered variant produce
different states: the clamp truncates the player x to 450 before the
camera reads it, so the code leaves the camera at x = 995 while the
spec order would scroll it to 985. -/
theorem c4_counterexample :
    appUpdate ⟨false, true, false⟩ [] 0 scrollReadyApp ≠
      specOrderAppUpdate ⟨false, true, false⟩ [] 0 scrollReadyApp := by
  decide

/-- Claim C4 (amended): in every frame the core executes body
integration, then collision resolution, then the edge check, then the
clamp, and then the camera update: the camera update follows the clamp
and observes the clamped player state. The two orders genuinely
differ: at `scrollReadyApp` the code order leaves the camera at
x = 995 while the spec order would move it to x = 985. -/
theorem c4_amended :
    (∀ (keys : Keys) (plats : List Rect) (dt : ℚ) (st : AppState),
        appUpdate keys plats dt st =
          { player := clampPhase (edgePhase (resolvePhase plats
                (integratePhase keys plats dt st.player))),
            camera := cameraUpdate st.camera (clampPhase (edgePhase
                (resolvePhase plats (integratePhase keys plats dt st.player)))) }) ∧
      (appUpdate ⟨false, true, false⟩ [] 0 scrollReadyApp).camera.position =
        ⟨995, 200⟩ ∧
      (specOrderAppUpdate ⟨false, true, false⟩ [] 0
          scrollReadyApp).camera.position = ⟨985, 200⟩ := by
  exact ⟨fun keys plats dt st => rfl, by decide, by decide⟩

set_option maxRecDepth 4000 in
/-- Claim C5 (refuted as stated): not every collision test in a step
uses a bounding box re-derived from the current position in that step.
After 20 no-input steps from the initial state the body has landed on
`platform2`: `fix_top` changed `position` without touching the rect,
so the rect the next jump gate reads (the stored `self.rect`) differs
from a box re-derived from the current position. -/
theorem c5_counterexample :
    jumpGateRect ((playerUpdate noKeys codePlatforms 0)^[20] initPlayer) ≠
      rectFromMidbottom
        ((playerUpdate noKeys codePlatforms 0)^[20] initPlayer).position := by
  rw [fallChain20]
  decide

set_option maxRecDepth 4000 in
/-- Claim C5 (amended): the post-move grounding test uses the box
re-derived from the just-integrated position in the same step, and the
jump gate reads the stored `self.rect`, which is the box left by the
previous step and can be stale: after the 20-step landing trace the
stored rect differs from a box re-derived from the current position. -/
theorem c5_amended :
    (∀ (keys : Keys) (plats : List Rect) (dt : ℚ) (s : PlayerState),
        (integratePhase keys plats dt s).rect =
            rectFromMidbottom (integratePhase keys plats dt s).position ∧
          jumpGateRect s = s.rect) ∧
      ((playerUpdate noKeys codePlatforms 0)^[20] initPlayer).rect ≠
        rectFromMidbottom
          ((playerUpdate noKeys codePlatforms 0)^[20] initPlayer).position := by
  exact ⟨fun keys plats dt s => ⟨rfl, rfl⟩, by rw [fallChain20]; decide⟩

set_option maxRecDepth 4000 in
/-- Claim C6 (refuted as stated): with jump held and the grounding
gate finding no overlap, `velocity.y` does not always change by
gravity alone. After 19 no-input steps from the initial state the body
is one step above `platform2`; the gate misses, yet the step with jump
held ends with `velocity.y = 0` (the landing snap fires), not with
`velocity.y + 0.5`. -/
theorem c6_counterexample :
    firstHit ((playerUpdate noKeys codePlatforms 0)^[19] initPlayer).rect
        codePlatforms = none ∧
      (playerUpdate ⟨false, false, true⟩ codePlatforms 0
          ((playerUpdate noKeys codePlatforms 0)^[19] initPlayer)).velocity.y ≠
        ((playerUpdate noKeys codePlatforms 0)^[19] initPlayer).velocity.y +
          gravity := by
  rw [fallChain19]
  decide

/-- Claim C6 (amended): with the jump input held, the step equals the
no-jump step applied to the start state with `velocity.y` preset to
the jump impulse -10 when the gate test (against the stored
previous-step box) hits, and applied to the unchanged start state when
the gate misses — so a grounded jump sets `velocity.y` to -10 before
gravity is integrated, and an airborne jump leaves the step identical
to the no-jump step (gravity integration, plus the landing snap when
the post-move grounding test hits). -/
theorem c6_amended (l r : Bool) (plats : List Rect) (dt : ℚ)
    (s : PlayerState) :
    playerUpdate ⟨l, r, true⟩ plats dt s =
      playerUpdate ⟨l, r, false⟩ plats dt
        (if (firstHit s.rect plats).isSome then
          { s with velocity := ⟨s.velocity.x, playerJump⟩ } else s) := by
  have key : integratePhase ⟨l, r, true⟩ plats dt s =
      integratePhase ⟨l, r, false⟩ plats dt
        (if (firstHit s.rect plats).isSome then
          { s with velocity := ⟨s.velocity.x, playerJump⟩ } else s) := by
    cases hg : (firstHit s.rect plats).isSome with
    | false => simp [integratePhase, hg]
    | true =>
        simp only [integratePhase, hg, if_true]
        cases hlr : r || l <;> simp [hlr]
  unfold playerUpdate
  rw [key]

/-- Claim C10 (confirmed): the collision-resolution phase only ever
modifies the vertical components: for every body state and every
platform list, `position.x`, `velocity.x`, the acceleration and the
rect are untouched, so horizontal interpenetration is never corrected. -/
theorem c10_resolve_vertical_only (plats : List Rect) (s : PlayerState) :
    (resolvePhase plats s).position.x = s.position.x ∧
      (resolvePhase plats s).velocity.x = s.velocity.x ∧
      (resolvePhase plats s).acceleration = s.acceleration ∧
      (resolvePhase plats s).rect = s.rect := by
  unfold resolvePhase
  split <;> exact ⟨rfl, rfl, rfl, rfl⟩

end Platformer
